import Mathlib

/-!
Shallow embedding of the Barq-AutoPost single-page application.

The repository consists of near-duplicate iterations of one React app
(src/index.tsx, src/unnamed/part_000, src/unnamed/part_001) over a small
service module (src/geminiService.ts, src/unnamed/part_002).  The
embeddings below model the pure content of the handlers: component state
records, explicit request values for the network calls, and the outcome of
each remote call passed in as an argument.  Namespaces separate the
variants: GSvc for the service module, ITsx for src/index.tsx, P1 for
src/unnamed/part_001 together with the app bundled after the service module
in src/geminiService.ts, and P0 for src/unnamed/part_000.
-/

namespace Barq

/-- Kind of a toast notification; the source uses the literal union of
success and error. -/
inductive NotifKind
  | success
  | error
deriving DecidableEq

/-- Transient user-facing notification with a message and a kind. -/
structure Notif where
  message : String
  kind : NotifKind
deriving DecidableEq

/-- HTTP response as observed through fetch: the ok flag, the numeric
status, and the body text. -/
structure HttpResp where
  ok : Bool
  status : Nat
  bodyText : String
deriving DecidableEq

/-- Value appended to a FormData object: either a named file built from a
blob, with the blob content kept as the data URL string it came from, or a
plain text field. -/
inductive FormValue
  | fileVal (content : String) (filename : String)
  | textVal (s : String)
deriving DecidableEq

/-- One name plus value entry of a FormData object. -/
structure FormPart where
  name : String
  value : FormValue
deriving DecidableEq

/-- Body of an outgoing request: multipart form data or a JSON object,
the latter kept as its list of string fields. -/
inductive ReqBody
  | multipart (parts : List FormPart)
  | jsonBody (fields : List (String × String))
deriving DecidableEq

/-- Whether a request body is encoded as multipart form data. -/
def ReqBody.isMultipart : ReqBody → Bool
  | ReqBody.multipart _ => true
  | ReqBody.jsonBody _ => false

/-- A request sent to an HTTP endpoint. -/
structure Request where
  url : String
  body : ReqBody
deriving DecidableEq

/-- Embedding of the JS string split on a one-character separator: every
segment is kept, including empty ones, and the result is never empty. -/
def splitChar (sep : Char) : List Char → List (List Char)
  | [] => [[]]
  | c :: rest =>
    if c = sep then [] :: splitChar sep rest
    else
      match splitChar sep rest with
      | [] => [[c]]
      | s :: ss => (c :: s) :: ss

/-- Embedding of the JS array join on a one-character separator. -/
def joinChar (sep : Char) : List (List Char) → List Char
  | [] => []
  | [s] => s
  | s :: s2 :: rest => s ++ sep :: joinChar sep (s2 :: rest)

/-- Embedding of the JS string startsWith test. -/
def hasPrefixChars : List Char → List Char → Bool
  | [], _ => true
  | _ :: _, [] => false
  | p :: ps, c :: cs => p = c && hasPrefixChars ps cs

/-- Embedding of the JS string trim: leading and trailing whitespace
characters are removed. -/
def jsTrim (s : List Char) : List Char :=
  ((s.dropWhile Char.isWhitespace).reverse.dropWhile Char.isWhitespace).reverse

/-- Event on the network: a request to a URL, or a backoff sleep.  The
sources never sleep, so embeddings only ever emit request events; the sleep
constructor exists so that absence of backoff is expressible. -/
inductive NetEvent
  | request (url : String)
  | sleep (ms : Nat)
deriving DecidableEq

end Barq

namespace Barq.GSvc

/-! Embedding of the service module src/geminiService.ts (the same
functions appear in src/unnamed/part_002). -/

/-- Bytes of a JS Blob together with its MIME type.  The source fills the
byte array from index n-1 down to 0 with charCodeAt(n), which yields the
decoded bytes in their original order. -/
structure Blob where
  mimeType : String
  bytes : List Nat
deriving DecidableEq

/-- Base64 alphabet used by atob and btoa. -/
def b64Chars : List Char :=
  "ABCDEFGHIJKLMNOPQRSTUVWXYZabcdefghijklmnopqrstuvwxyz0123456789+/".toList

/-- Character for a sextet value. -/
def idxToB64 (i : Nat) : Char := b64Chars.getD i 'A'

/-- Position of a character in a list, counted from zero. -/
def b64Find (c : Char) : List Char → Option Nat
  | [] => none
  | a :: rest => if a = c then some 0 else (b64Find c rest).map (fun i => i + 1)

/-- Sextet value of a base64 character. -/
def b64ToIdx (c : Char) : Option Nat := b64Find c b64Chars

/-- Base64 decoding of a character list, as performed by atob on inputs
without ASCII whitespace: groups of four characters decode to three bytes,
with one or two trailing padding characters allowed in the last group, and
an unpadded trailing group of two or three characters also accepted. -/
def atobList : List Char → Option (List Nat)
  | [] => some []
  | [c1, c2] =>
    match b64ToIdx c1, b64ToIdx c2 with
    | some i1, some i2 => some [i1 * 4 + i2 / 16]
    | _, _ => none
  | [c1, c2, c3] =>
    match b64ToIdx c1, b64ToIdx c2, b64ToIdx c3 with
    | some i1, some i2, some i3 => some [i1 * 4 + i2 / 16, (i2 % 16) * 16 + i3 / 4]
    | _, _, _ => none
  | c1 :: c2 :: c3 :: c4 :: rest =>
    match b64ToIdx c1, b64ToIdx c2 with
    | some i1, some i2 =>
      if c3 = '=' then
        if c4 = '=' ∧ rest = [] then some [i1 * 4 + i2 / 16] else none
      else
        match b64ToIdx c3 with
        | none => none
        | some i3 =>
          if c4 = '=' then
            if rest = [] then some [i1 * 4 + i2 / 16, (i2 % 16) * 16 + i3 / 4] else none
          else
            match b64ToIdx c4 with
            | none => none
            | some i4 =>
              (atobList rest).map
                (fun bs => (i1 * 4 + i2 / 16) :: ((i2 % 16) * 16 + i3 / 4) ::
                  ((i3 % 4) * 64 + i4) :: bs)
    | _, _ => none
  | _ => none

/-- Base64 encoding of a byte list, producing padded canonical output. -/
def btoaList : List Nat → List Char
  | [] => []
  | [a] => [idxToB64 (a / 4), idxToB64 ((a % 4) * 16), '=', '=']
  | [a, b] => [idxToB64 (a / 4), idxToB64 ((a % 4) * 16 + b / 16), idxToB64 ((b % 16) * 4), '=']
  | a :: b :: c :: rest =>
    idxToB64 (a / 4) :: idxToB64 ((a % 4) * 16 + b / 16) ::
      idxToB64 ((b % 16) * 4 + c / 64) :: idxToB64 (c % 64) :: btoaList rest

/-- Group captured by the lazy regex fragment that scans for a semicolon
after the current position: the characters before the first semicolon, with
failure when a line terminator or the end of the string intervenes, since
the dot of the source regex does not match line terminators. -/
def takeUntilSemi : List Char → Option (List Char)
  | [] => none
  | c :: rest =>
    if c = ';' then some []
    else if c = '\n' ∨ c = '\r' then none
    else (takeUntilSemi rest).map (fun l => c :: l)

/-- Embedding of matching the regex colon, lazy dot star, semicolon and
returning its first capture group: the match starts at the first colon that
is followed by a semicolon with no line terminator between them. -/
def matchColonSemi : List Char → Option (List Char)
  | [] => none
  | c :: rest =>
    if c = ':' then
      match takeUntilSemi rest with
      | some mime => some mime
      | none => matchColonSemi rest
    else matchColonSemi rest

/-- Embedding of dataURLtoBlob from src/geminiService.ts.  The input is
split on commas; the MIME type is the group captured by the colon to
semicolon regex on the first segment, and a missing match throws, modelled
by the error case.  The second segment is decoded with atob; JS indexes a
missing second segment as undefined, which atob receives coerced to the
nine character string undefined and rejects. -/
def dataURLtoBlob (dataurl : String) : Except String Blob :=
  let arr := splitChar ',' dataurl.toList
  match matchColonSemi (arr.headD []) with
  | none => Except.error "TypeError: regex match is null"
  | some mimeChars =>
    match atobList (arr.getD 1 "undefined".toList) with
    | none => Except.error "InvalidCharacterError: invalid base64"
    | some bytes => Except.ok { mimeType := String.mk mimeChars, bytes := bytes }

/-- Embedding of enhanceText from src/geminiService.ts on a successful
service call: respText is the text field of the response, which can be
missing, and the JS or-else falls back to the input for a missing or empty
string. -/
def enhanceText (text : String) (respText : Option String) : String :=
  match respText with
  | none => text
  | some s => if s = "" then text else s

/-- Embedding of generateCaption from src/geminiService.ts on a successful
service call: the JS or-else falls back to the empty string. -/
def generateCaption (accomplishment : String) (respText : Option String) : String :=
  match respText with
  | none => ""
  | some s => if s = "" then "" else s

/-- Endpoint of the hosted text-generation service reached through
ai.models.generateContent, identified by the model name the source passes
to every call. -/
def generateContentEndpoint : String := "models/gemini-3-flash-preview:generateContent"

/-- Embedding of enhanceText together with its network behaviour: the
function awaits exactly one generateContent call; a thrown error is logged
and rethrown with no further request.  The outcome argument carries the
optional text field of the response, or the thrown message. -/
def enhanceTextTrace (text : String) (outcome : Except String (Option String)) :
    List NetEvent × Except String String :=
  match outcome with
  | Except.error msg =>
    ([NetEvent.request generateContentEndpoint], Except.error msg)
  | Except.ok respText =>
    ([NetEvent.request generateContentEndpoint], Except.ok (enhanceText text respText))

/-- Embedding of generateCaption together with its network behaviour: one
generateContent call, an error being logged and rethrown with no further
request. -/
def generateCaptionTrace (accomplishment : String)
    (outcome : Except String (Option String)) : List NetEvent × Except String String :=
  match outcome with
  | Except.error msg =>
    ([NetEvent.request generateContentEndpoint], Except.error msg)
  | Except.ok respText =>
    ([NetEvent.request generateContentEndpoint],
     Except.ok (generateCaption accomplishment respText))

/-- URL of the image generation webhook. -/
def WEBHOOK_URL : String := "https://n8n.srv927950.hstgr.cloud/webhook/image-get"

/-- Embedding of generateSocialPost: the list of network events it causes
paired with its result.  Logo and style reference are converted with
dataURLtoBlob before the fetch, and a conversion failure throws without any
request.  resp is the webhook response and respDataURL the data URL the
FileReader produces from the response blob on success. -/
def generateSocialPost (accomplishment logoBase64 : String) (styleRef : Option String)
    (resp : HttpResp) (respDataURL : String) : List NetEvent × Except String String :=
  match dataURLtoBlob logoBase64 with
  | Except.error _ => ([], Except.error "Failed to process logo image.")
  | Except.ok _ =>
    let styleBlob : Except String (Option Blob) :=
      match styleRef with
      | none => Except.ok none
      | some s =>
        match dataURLtoBlob s with
        | Except.error _ => Except.error "Failed to process style reference image."
        | Except.ok b => Except.ok (some b)
    match styleBlob with
    | Except.error msg => ([], Except.error msg)
    | Except.ok _ =>
      if resp.ok then
        ([NetEvent.request WEBHOOK_URL], Except.ok respDataURL)
      else
        ([NetEvent.request WEBHOOK_URL],
          Except.error ("Generation failed with status: " ++ toString resp.status))

end Barq.GSvc

namespace Barq.ITsx

/-! Embedding of the App component of src/index.tsx. -/

/-- Tabs of the src/index.tsx App. -/
inductive PostType
  | image
  | text
deriving DecidableEq

/-- Component state of the src/index.tsx App, plus a console field that
records the messages logged with console.error. -/
structure AppState where
  activeTab : PostType
  accomplishment : String
  textContent : String
  styleRef : Option String
  generatedImage : Option String
  caption : String
  loading : Bool
  enhancing : Bool
  generatingCaption : Bool
  enhancingCaption : Bool
  posting : Bool
  errorMsg : Option String
  notif : Option Notif
  logoBase64 : Option String
  console : List String
deriving DecidableEq

/-- JS truthiness fallback on strings: a, or b when a is empty. -/
def jsOrStr (a b : String) : String := if a = "" then b else a

/-- Embedding of handleGenerate from src/index.tsx.  The outcome argument
is the result of the awaited generateSocialPost call: the produced image
data URL, or the message of the thrown error. -/
def handleGenerate (st : AppState) (outcome : Except String String) : AppState :=
  if st.accomplishment = "" then
    { st with errorMsg := some "Please enter your weekly accomplishments." }
  else if st.logoBase64 = none then
    { st with errorMsg := some "Logo is still loading, please wait a moment..." }
  else
    let st1 := { st with loading := true, errorMsg := none, generatedImage := none,
                         notif := none, caption := "" }
    match outcome with
    | Except.ok img => { st1 with generatedImage := some img, loading := false }
    | Except.error msg =>
      { st1 with console := st1.console ++ [msg],
                 errorMsg := some (jsOrStr msg "Failed to generate image."),
                 loading := false }

/-- Embedding of handleEnhance from src/index.tsx; outcome is the result
of the enhanceText call. -/
def handleEnhance (st : AppState) (ty : PostType) (outcome : Except String String) : AppState :=
  let targetText := if ty = PostType.image then st.accomplishment else st.textContent
  if targetText = "" then st
  else
    let st1 := { st with enhancing := true, errorMsg := none }
    match outcome with
    | Except.ok improvedText =>
      if ty = PostType.image then
        { st1 with accomplishment := improvedText, enhancing := false }
      else
        { st1 with textContent := improvedText, enhancing := false }
    | Except.error msg =>
      { st1 with console := st1.console ++ [msg],
                 errorMsg := some "Failed to enhance text. Please try again.",
                 enhancing := false }

/-- Embedding of handleGenerateCaption from src/index.tsx; outcome is the
result of the generateCaption call. -/
def handleGenerateCaption (st : AppState) (outcome : Except String String) : AppState :=
  if st.accomplishment = "" then st
  else
    let st1 := { st with generatingCaption := true }
    match outcome with
    | Except.ok cap => { st1 with caption := cap, generatingCaption := false }
    | Except.error msg =>
      { st1 with console := st1.console ++ [msg],
                 errorMsg := some "Failed to generate caption.",
                 generatingCaption := false }

/-- Network events of the handleEnhance user action of src/index.tsx: the
enhanceText call is awaited exactly once when the target text is nonempty,
and no request is made otherwise; the guard is the one at the top of
handleEnhance. -/
def handleEnhanceTrace (st : AppState) (ty : PostType)
    (outcome : Except String (Option String)) : List NetEvent :=
  let targetText := if ty = PostType.image then st.accomplishment else st.textContent
  if targetText = "" then []
  else (GSvc.enhanceTextTrace targetText outcome).1

/-- Network events of the handleEnhanceCaption user action of
src/index.tsx: one enhanceText call on the caption when it is nonempty. -/
def handleEnhanceCaptionTrace (st : AppState)
    (outcome : Except String (Option String)) : List NetEvent :=
  if st.caption = "" then []
  else (GSvc.enhanceTextTrace st.caption outcome).1

/-- Network events of the handleGenerateCaption user action of
src/index.tsx: one generateCaption call when the accomplishment is
nonempty. -/
def handleGenerateCaptionTrace (st : AppState)
    (outcome : Except String (Option String)) : List NetEvent :=
  if st.accomplishment = "" then []
  else (GSvc.generateCaptionTrace st.accomplishment outcome).1

/-- URL of the image publishing webhook. -/
def IMAGE_WEBHOOK_URL : String := "https://n8n.srv927950.hstgr.cloud/webhook/image-linkedin"

/-- URL of the text publishing webhook. -/
def TEXT_WEBHOOK_URL : String :=
  "https://n8n.srv927950.hstgr.cloud/webhook/3c345faf-7a5c-42ad-aa0a-4985b1e6f1dc"

/-- Embedding of handlePostToLinkedIn from src/index.tsx.  now is the ISO
timestamp produced for the JSON payload and resp the webhook response.
Returns the updated state and the request sent to a webhook endpoint, if
any.  The initial fetch of the generated image data URL in the image branch
is a local blob conversion rather than a webhook request, and its blob is
modelled by the data URL string itself. -/
def handlePostToLinkedIn (st : AppState) (now : String) (resp : HttpResp) :
    AppState × Option Request :=
  let st0 := { st with notif := none, errorMsg := none }
  match st.activeTab with
  | PostType.image =>
    match st.generatedImage with
    | none => ({ st0 with errorMsg := some "Please generate an image first." }, none)
    | some img =>
      let parts := FormPart.mk "file" (FormValue.fileVal img "post.png") ::
        (if st.caption = "" then [] else [FormPart.mk "caption" (FormValue.textVal st.caption)])
      let req : Request := { url := IMAGE_WEBHOOK_URL, body := ReqBody.multipart parts }
      let st1 := { st0 with posting := true }
      if resp.ok then
        ({ st1 with
             notif := some ⟨"Successfully posted image to LinkedIn!", NotifKind.success⟩,
             posting := false }, some req)
      else
        let msg := "Webhook failed with status " ++ toString resp.status
        ({ st1 with console := st1.console ++ [msg],
                    notif := some ⟨"Failed to post image: " ++ msg, NotifKind.error⟩,
                    posting := false }, some req)
  | PostType.text =>
    if st.textContent = "" then
      ({ st0 with errorMsg := some "Please enter some text content to post." }, none)
    else
      let req : Request := { url := TEXT_WEBHOOK_URL,
                             body := ReqBody.jsonBody
                               [("text", st.textContent), ("timestamp", now),
                                 ("type", "text_post")] }
      let st1 := { st0 with posting := true }
      if resp.ok then
        ({ st1 with
             notif := some ⟨"Successfully posted text to LinkedIn!", NotifKind.success⟩,
             posting := false }, some req)
      else
        let msg := "Webhook failed with status " ++ toString resp.status ++ ": " ++ resp.bodyText
        ({ st1 with console := st1.console ++ [msg],
                    notif := some ⟨"Failed to post text: " ++ msg, NotifKind.error⟩,
                    posting := false }, some req)

end Barq.ITsx

namespace Barq.P1

/-! Embedding of the App of src/unnamed/part_001 and of the near-identical
App bundled after the service module in src/geminiService.ts. -/

/-- Component state of the part_001 App restricted to the fields its
handleGenerate reads or writes, plus a console field recording messages
logged with console.error. -/
structure StP1 where
  accomplishment : String
  caption : String
  styleRef : Option String
  generatedImage : Option String
  loading : Bool
  notif : Option Notif
  logoBase64 : Option String
  console : List String
deriving DecidableEq

/-- Observable step of a handleGenerate run: the remote image call, the
store of its result into the generated image state, the remote caption
call, and the store of the caption. -/
inductive GenEvent
  | callImage (accomplishment : String) (logo : String) (styleRef : Option String)
  | storeImage (img : String)
  | callCaption (accomplishment : String)
  | storeCaption (cap : String)
deriving DecidableEq

/-- Whether the event is the remote image generation call. -/
def GenEvent.isCallImage : GenEvent → Bool
  | GenEvent.callImage _ _ _ => true
  | _ => false

/-- Whether the event is the remote caption generation call. -/
def GenEvent.isCallCaption : GenEvent → Bool
  | GenEvent.callCaption _ => true
  | _ => false

/-- Embedding of handleGenerate from src/unnamed/part_001: the trace of
remote calls and state stores, paired with the final state.  imgOutcome is
the generateSocialPost result; capOutcome is the generateCaption result and
is consulted only when that call is reached, which in this variant also
requires the caption state to be empty. -/
def handleGenerateP1 (st : StP1) (imgOutcome capOutcome : Except String String) :
    List GenEvent × StP1 :=
  if st.accomplishment = "" ∨ st.logoBase64 = none then ([], st)
  else
    let callE := GenEvent.callImage st.accomplishment (st.logoBase64.getD "") st.styleRef
    let st1 := { st with loading := true, generatedImage := none, notif := none }
    match imgOutcome with
    | Except.error _ =>
      ([callE],
       { st1 with notif := some ⟨"Engine Failure: Unable to generate", NotifKind.error⟩,
                  loading := false })
    | Except.ok res =>
      let st2 := { st1 with generatedImage := some res,
                            notif := some ⟨"Graphic Forged Successfully", NotifKind.success⟩ }
      if st.caption = "" then
        match capOutcome with
        | Except.ok cap =>
          ([callE, GenEvent.storeImage res, GenEvent.callCaption st.accomplishment,
            GenEvent.storeCaption cap],
           { st2 with caption := cap, loading := false })
        | Except.error _ =>
          ([callE, GenEvent.storeImage res, GenEvent.callCaption st.accomplishment],
           { st2 with notif := some ⟨"Engine Failure: Unable to generate", NotifKind.error⟩,
                      loading := false })
      else
        ([callE, GenEvent.storeImage res], { st2 with loading := false })

/-- Embedding of the handleGenerate variant of the App bundled after the
service module in src/geminiService.ts, which always regenerates the
caption after a successful image generation. -/
def handleGenerateGS (st : StP1) (imgOutcome capOutcome : Except String String) :
    List GenEvent × StP1 :=
  if st.accomplishment = "" ∨ st.logoBase64 = none then ([], st)
  else
    let callE := GenEvent.callImage st.accomplishment (st.logoBase64.getD "") st.styleRef
    let st1 := { st with loading := true, generatedImage := none, notif := none }
    match imgOutcome with
    | Except.error _ =>
      ([callE],
       { st1 with notif := some ⟨"Engine Failure: Unable to generate", NotifKind.error⟩,
                  loading := false })
    | Except.ok res =>
      let st2 := { st1 with generatedImage := some res,
                            notif := some ⟨"Graphic Forged Successfully", NotifKind.success⟩ }
      match capOutcome with
      | Except.ok cap =>
        ([callE, GenEvent.storeImage res, GenEvent.callCaption st.accomplishment,
          GenEvent.storeCaption cap],
         { st2 with caption := cap, loading := false })
      | Except.error _ =>
        ([callE, GenEvent.storeImage res, GenEvent.callCaption st.accomplishment],
         { st2 with notif := some ⟨"Engine Failure: Unable to generate", NotifKind.error⟩,
                    loading := false })

end Barq.P1

namespace Barq.P0

/-! Embedding of the App of src/unnamed/part_000: the style reference file
intake, the useDebounce hook, the auto caption effect, and the
LinkedInPreview component. -/

/-- Modes of the part_000 App. -/
inductive AppMode
  | image
  | text
deriving DecidableEq

/-- Narrative tones selectable in text mode. -/
inductive Tone
  | humbleBrag
  | technicalDeepDive
  | storytelling
  | collaborative
  | corporateProfessional
deriving DecidableEq

/-- File as seen by processFile: its MIME type string together with the
data URL that FileReader.readAsDataURL produces for its contents. -/
structure BFile where
  mimeType : String
  dataURL : String
deriving DecidableEq

/-- Component state of the part_000 App restricted to the fields the
modelled handlers read or write. -/
structure St0 where
  appMode : AppMode
  accomplishment : String
  caption : String
  styleRef : Option String
  generatedImage : Option String
  loading : Bool
  notif : Option Notif
  selectedTone : Tone
  logoBase64 : Option String
deriving DecidableEq

/-- Embedding of processFile from src/unnamed/part_000: a file whose MIME
type does not start with image/ only raises an error notification, any
other file is stored as the style reference data URL. -/
def processFile (file : BFile) (st : St0) : St0 :=
  if !(hasPrefixChars "image/".toList file.mimeType.toList) then
    { st with notif := some ⟨"Please upload an image file", NotifKind.error⟩ }
  else
    { st with styleRef := some file.dataURL }

/-- Embedding of the useDebounce timer protocol.  cur is the currently
returned value and pending the live setTimeout, recorded as its fire time
with its payload.  Each change of the input value at time s first delivers
the pending timeout when its fire time lies strictly before s, then clears
it and schedules a new timeout at s plus delay; the last argument is the
time at which the returned value is read. -/
def useDebounceRun {α : Type} (delay : Nat) (cur : α) (pending : Option (Nat × α)) :
    List (Nat × α) → Nat → α
  | [], t =>
    match pending with
    | some (ft, v) => if ft ≤ t then v else cur
    | none => cur
  | (s, v) :: rest, t =>
    let cur2 :=
      match pending with
      | some (ft, pv) => if ft < s then pv else cur
      | none => cur
    useDebounceRun delay cur2 (some (s + delay, v)) rest t

/-- Debounced value observed at time t, starting from the initial input
value, after the listed timed edits of the input. -/
def useDebounce {α : Type} (delay : Nat) (init : α) (edits : List (Nat × α)) (t : Nat) : α :=
  useDebounceRun delay init none edits t

/-- Specification reading of the debounce behaviour: the value of the
latest edit that remained unchanged for the full delay before the next
edit, where the last edit must have settled by the observation time t; the
acc argument carries the best earlier candidate. -/
def settledVal {α : Type} (delay t : Nat) (acc : α) : List (Nat × α) → α
  | [] => acc
  | [(s, v)] => if s + delay ≤ t then v else acc
  | (s, v) :: e2 :: rest =>
    settledVal delay t (if s + delay < e2.1 then v else acc) (e2 :: rest)

/-- Remote caption request issued by handleAIRefineCaption in part_000. -/
structure CaptionCall where
  accomplishment : String
  tone : Tone
deriving DecidableEq

/-- Embedding of the auto caption effect of part_000 combined with the
guard at the top of handleAIRefineCaption: for a debounced accomplishment
value, the remote caption call it issues, if any. -/
def autoCaptionEffect (st : St0) (debounced : String) : Option CaptionCall :=
  if st.appMode = AppMode.text ∧ 10 < (jsTrim debounced.toList).length then
    if st.accomplishment = "" then none
    else some ⟨st.accomplishment, st.selectedTone⟩
  else none

/-- Number of lines shown in the collapsed LinkedIn preview. -/
def previewLimit : Nat := 4

/-- Embedding of the LinkedInPreview rendering: the rendered text together
with whether the see-more control is shown. -/
def linkedInPreview (text : String) (isExpanded : Bool) : String × Bool :=
  let textLines := splitChar '\n' text.toList
  let showSeeMore := decide (previewLimit < textLines.length) && !isExpanded
  (if showSeeMore then String.mk (joinChar '\n' (textLines.take previewLimit)) else text,
   showSeeMore)

end Barq.P0

namespace Barq.Editor

/-! Embedding of getCanvasCoords from the image editor of
src/unnamed/part_001, duplicated in the App bundled after the service
module in src/geminiService.ts.  Coordinates are rational numbers. -/

/-- Bounding rectangle as returned by getBoundingClientRect. -/
structure Rect where
  left : ℚ
  top : ℚ
  width : ℚ
  height : ℚ

/-- Client coordinates of a mouse event. -/
structure MouseEvt where
  clientX : ℚ
  clientY : ℚ

/-- Internal canvas width in pixels. -/
def INTERNAL_WIDTH : ℚ := 1080

/-- Internal canvas height in pixels. -/
def INTERNAL_HEIGHT : ℚ := 1350

/-- Embedding of getCanvasCoords. -/
def getCanvasCoords (rect : Rect) (e : MouseEvt) : ℚ × ℚ :=
  let scaleX := INTERNAL_WIDTH / rect.width
  let scaleY := INTERNAL_HEIGHT / rect.height
  ((e.clientX - rect.left) * scaleX, (e.clientY - rect.top) * scaleY)

end Barq.Editor

namespace Barq

/-! Concrete states used to instantiate the theorems below. -/

/-- Example state of the src/index.tsx App: image tab, with an
accomplishment, a loaded logo, a style reference, a previously generated
image and a nonempty caption. -/
def exAppState : ITsx.AppState where
  activeTab := ITsx.PostType.image
  accomplishment := "Shipped the release"
  textContent := "Weekly update for the network"
  styleRef := some "data:image/png;base64,QUJD"
  generatedImage := some "data:image/png;base64,T0xE"
  caption := "Old caption"
  loading := false
  enhancing := false
  generatingCaption := false
  enhancingCaption := false
  posting := false
  errorMsg := none
  notif := none
  logoBase64 := some "data:image/png;base64,TE9HTw=="
  console := []

/-- Example state on the text tab. -/
def exAppStateText : ITsx.AppState :=
  { exAppState with activeTab := ITsx.PostType.text }

/-- Example state of the part_001 App with an empty caption. -/
def exStP1 : P1.StP1 where
  accomplishment := "Shipped the release"
  caption := ""
  styleRef := none
  generatedImage := none
  loading := false
  notif := none
  logoBase64 := some "data:image/png;base64,TE9HTw=="
  console := []

/-- Example state of the part_000 App in text mode. -/
def exSt0 : P0.St0 where
  appMode := P0.AppMode.text
  accomplishment := "Shipped twelve features this week"
  caption := ""
  styleRef := none
  generatedImage := none
  loading := false
  notif := none
  selectedTone := P0.Tone.storytelling
  logoBase64 := none

/-- Example failing webhook response. -/
def exRespFail : HttpResp := ⟨false, 500, "server exploded"⟩

/-- Request produced by the text-only publish branch at the example
state. -/
def exTextReq : Request :=
  ⟨ITsx.TEXT_WEBHOOK_URL,
   ReqBody.jsonBody [("text", exAppStateText.textContent),
     ("timestamp", "2026-10-11T12:00:00.000Z"), ("type", "text_post")]⟩

/-- Example caption with six newline-separated lines. -/
def exCaption : String := "Win one\nWin two\nWin three\nWin four\nWin five\nWin six"

/-! Claim theorems. -/

/-- Claim C5: processFile stores a dropped or selected file as the style
reference, read as a data URL, exactly when its MIME type string starts
with image slash; otherwise it shows an error notification and leaves the
style reference unchanged, and nothing besides the MIME type is examined:
both branches hold for every file content. -/
theorem claim_C5 (file : P0.BFile) (st : P0.St0) :
    (hasPrefixChars "image/".toList file.mimeType.toList = true →
      P0.processFile file st = { st with styleRef := some file.dataURL }) ∧
    (hasPrefixChars "image/".toList file.mimeType.toList = false →
      P0.processFile file st =
        { st with notif := some ⟨"Please upload an image file", NotifKind.error⟩ }) := by
  constructor <;> intro h <;> simp at h <;> simp [P0.processFile, h]

/-- Witness for C5 at a PNG file and at a PDF file. -/
theorem claim_C5_witness :
    P0.processFile ⟨"image/png", "data:image/png;base64,QUJD"⟩ exSt0 =
      { exSt0 with styleRef := some "data:image/png;base64,QUJD" } ∧
    P0.processFile ⟨"application/pdf", "data:application/pdf;base64,QUJD"⟩ exSt0 =
      { exSt0 with notif := some ⟨"Please upload an image file", NotifKind.error⟩ } :=
  ⟨(claim_C5 ⟨"image/png", "data:image/png;base64,QUJD"⟩ exSt0).1 (by decide),
   (claim_C5 ⟨"application/pdf", "data:application/pdf;base64,QUJD"⟩ exSt0).2 (by decide)⟩

/-- Claim C6: for a canvas rectangle of positive width and height,
getCanvasCoords computes exactly the stated products with 1080 over width
and 1350 over height, and that linear map sends the top-left corner of the
displayed rectangle to the origin and the bottom-right corner to the
internal canvas size. -/
theorem claim_C6 (rect : Editor.Rect) (e : Editor.MouseEvt)
    (hw : 0 < rect.width) (hh : 0 < rect.height) :
    Editor.getCanvasCoords rect e =
      ((e.clientX - rect.left) * (1080 / rect.width),
       (e.clientY - rect.top) * (1350 / rect.height)) ∧
    Editor.getCanvasCoords rect ⟨rect.left, rect.top⟩ = (0, 0) ∧
    Editor.getCanvasCoords rect ⟨rect.left + rect.width, rect.top + rect.height⟩ =
      (1080, 1350) := by
  have hw' : rect.width ≠ 0 := ne_of_gt hw
  have hh' : rect.height ≠ 0 := ne_of_gt hh
  refine ⟨rfl, ?_, ?_⟩
  · simp [Editor.getCanvasCoords]
  · simp only [Editor.getCanvasCoords, Editor.INTERNAL_WIDTH, Editor.INTERNAL_HEIGHT,
      Prod.mk.injEq]
    constructor
    · rw [add_sub_cancel_left]
      field_simp
    · rw [add_sub_cancel_left]
      field_simp

/-- Witness for C6 at a 540 by 675 display rectangle. -/
theorem claim_C6_witness :
    Editor.getCanvasCoords ⟨0, 0, 540, 675⟩ ⟨270, 135⟩ =
      (((270 : ℚ) - 0) * (1080 / 540), ((135 : ℚ) - 0) * (1350 / 675)) ∧
    Editor.getCanvasCoords ⟨0, 0, 540, 675⟩ ⟨(0 : ℚ), (0 : ℚ)⟩ = (0, 0) ∧
    Editor.getCanvasCoords ⟨0, 0, 540, 675⟩ ⟨(0 : ℚ) + 540, (0 : ℚ) + 675⟩ =
      (1080, 1350) :=
  claim_C6 ⟨0, 0, 540, 675⟩ ⟨270, 135⟩ (by norm_num) (by norm_num)

/-- Claim C9: on a successful service response with missing or empty text,
enhanceText returns its input unchanged and generateCaption returns the
empty string, and enhanceText never maps a nonempty input to an empty
result. -/
theorem claim_C9 (text acc : String) :
    GSvc.enhanceText text none = text ∧
    GSvc.enhanceText text (some "") = text ∧
    GSvc.generateCaption acc none = "" ∧
    GSvc.generateCaption acc (some "") = "" ∧
    (text ≠ "" → ∀ r : Option String, GSvc.enhanceText text r ≠ "") := by
  refine ⟨rfl, by simp [GSvc.enhanceText], rfl, by simp [GSvc.generateCaption], ?_⟩
  intro h r
  match r with
  | none => simpa [GSvc.enhanceText] using h
  | some s => by_cases hs : s = "" <;> simp [GSvc.enhanceText, hs, h]

/-- Witness for C9 at a nonempty input and an empty response. -/
theorem claim_C9_witness : GSvc.enhanceText "We shipped it" (some "") ≠ "" :=
  (claim_C9 "We shipped it" "acc").2.2.2.2 (by decide) (some "")

/-- Bridge between the useDebounce timer machine and the settled-value
reading: running the machine with a pending timeout scheduled by an edit at
time s equals the settled value of the edit list extended with that edit. -/
theorem useDebounceRun_settled {α : Type} (delay t : Nat) :
    ∀ (edits : List (Nat × α)) (cur pv : α) (s : Nat),
      P0.useDebounceRun delay cur (some (s + delay, pv)) edits t =
        P0.settledVal delay t cur ((s, pv) :: edits)
  | [], cur, pv, s => by simp [P0.useDebounceRun, P0.settledVal]
  | (s2, v2) :: rest, cur, pv, s => by
    have ih := useDebounceRun_settled delay t rest (if s + delay < s2 then pv else cur) v2 s2
    simpa [P0.useDebounceRun, P0.settledVal] using ih

/-- Claim C7: the useDebounce machine started on an edit list returns, at
any observation time, exactly the value of the latest edit that stayed
unchanged for the full delay, timers pending at an intervening change being
cancelled; and the auto caption effect issues a remote call only in text
mode with a trimmed debounced text strictly longer than 10 characters, in
which case the call carries the current accomplishment and tone. -/
theorem claim_C7 :
    (∀ (init : String) (edits : List (Nat × String)) (t : Nat),
      P0.useDebounce 2000 init edits t = P0.settledVal 2000 t init edits) ∧
    (∀ (st : P0.St0) (debounced : String) (c : P0.CaptionCall),
      P0.autoCaptionEffect st debounced = some c →
        st.appMode = P0.AppMode.text ∧ 10 < (jsTrim debounced.toList).length ∧
        st.accomplishment ≠ "" ∧ c = ⟨st.accomplishment, st.selectedTone⟩) := by
  constructor
  · intro init edits t
    match edits with
    | [] => rfl
    | (s, v) :: rest =>
      show P0.useDebounceRun 2000 init none ((s, v) :: rest) t = _
      simpa [P0.useDebounceRun] using useDebounceRun_settled 2000 t rest init v s
  · intro st debounced c h
    unfold P0.autoCaptionEffect at h
    split at h
    case isTrue hcond =>
      split at h
      case isTrue => exact absurd h (by simp)
      case isFalse hne =>
        refine ⟨hcond.1, hcond.2, hne, ?_⟩
        exact (Option.some.injEq _ _ ▸ h).symm
    case isFalse => exact absurd h (by simp)

/-- Witness for C7: the settled-value characterisation on a concrete edit
list with a cancelled intermediate edit, and the caption effect instance at
a concrete text-mode state. -/
theorem claim_C7_witness :
    P0.useDebounce 2000 "" [(0, "a"), (1500, "ab"), (4000, "abc")] 9000 =
      P0.settledVal 2000 9000 "" [(0, "a"), (1500, "ab"), (4000, "abc")] ∧
    (exSt0.appMode = P0.AppMode.text ∧
      10 < (jsTrim "  Completed the database migration  ".toList).length ∧
      exSt0.accomplishment ≠ "" ∧
      (⟨exSt0.accomplishment, exSt0.selectedTone⟩ : P0.CaptionCall) =
        ⟨exSt0.accomplishment, exSt0.selectedTone⟩) :=
  ⟨claim_C7.1 "" [(0, "a"), (1500, "ab"), (4000, "abc")] 9000,
   claim_C7.2 exSt0 "  Completed the database migration  "
     ⟨exSt0.accomplishment, exSt0.selectedTone⟩ (by decide)⟩

/-- Claim C3: in a single handleGenerate invocation, of the part_001
variant as well as the variant bundled in src/geminiService.ts, the remote
caption call only appears in the trace when the image call succeeded, and
then it appears strictly after the store of the returned image into the
generated image state; when the image call throws, no caption call is
made. -/
theorem claim_C3 (st : P1.StP1) (io co : Except String String) :
    (∀ m, io = Except.error m →
      (∀ a, P1.GenEvent.callCaption a ∉ (P1.handleGenerateP1 st io co).1) ∧
      (∀ a, P1.GenEvent.callCaption a ∉ (P1.handleGenerateGS st io co).1)) ∧
    (∀ a, P1.GenEvent.callCaption a ∈ (P1.handleGenerateP1 st io co).1 →
      ∃ r i j, io = Except.ok r ∧ i < j ∧
        (P1.handleGenerateP1 st io co).1.get? i = some (P1.GenEvent.storeImage r) ∧
        (P1.handleGenerateP1 st io co).1.get? j = some (P1.GenEvent.callCaption a)) ∧
    (∀ a, P1.GenEvent.callCaption a ∈ (P1.handleGenerateGS st io co).1 →
      ∃ r i j, io = Except.ok r ∧ i < j ∧
        (P1.handleGenerateGS st io co).1.get? i = some (P1.GenEvent.storeImage r) ∧
        (P1.handleGenerateGS st io co).1.get? j = some (P1.GenEvent.callCaption a)) := by
  by_cases hg : st.accomplishment = "" ∨ st.logoBase64 = none
  · simp [P1.handleGenerateP1, P1.handleGenerateGS, hg]
  · cases io with
    | error m =>
      cases co <;> simp [P1.handleGenerateP1, P1.handleGenerateGS, hg]
    | ok res =>
      refine ⟨?_, ?_, ?_⟩
      · intro m hm
        exact absurd hm (by simp)
      · intro a ha
        by_cases hc : st.caption = ""
        · cases co with
          | ok cap =>
            simp only [P1.handleGenerateP1, hg, if_false, ite_false, if_neg hg, hc,
              ite_true, if_pos] at ha ⊢
            simp at ha
            exact ⟨res, 1, 2, rfl, by omega, by simp [hc], by simp [hc, ha]⟩
          | error m2 =>
            simp only [P1.handleGenerateP1, if_neg hg] at ha ⊢
            simp [hc] at ha
            exact ⟨res, 1, 2, rfl, by omega, by simp [hc], by simp [hc, ha]⟩
        · simp only [P1.handleGenerateP1, if_neg hg] at ha
          simp [hc] at ha
      · intro a ha
        cases co with
        | ok cap =>
          simp only [P1.handleGenerateGS, if_neg hg] at ha ⊢
          simp at ha
          exact ⟨res, 1, 2, rfl, by omega, by simp, by simp [ha]⟩
        | error m2 =>
          simp only [P1.handleGenerateGS, if_neg hg] at ha ⊢
          simp at ha
          exact ⟨res, 1, 2, rfl, by omega, by simp, by simp [ha]⟩

/-- Witness for C3 at a concrete state with empty caption and successful
image and caption calls. -/
theorem claim_C3_witness :
    ∃ r i j, (Except.ok "data:image/png;base64,SU1H" : Except String String) = Except.ok r ∧
      i < j ∧
      (P1.handleGenerateP1 exStP1 (Except.ok "data:image/png;base64,SU1H")
        (Except.ok "A caption")).1.get? i = some (P1.GenEvent.storeImage r) ∧
      (P1.handleGenerateP1 exStP1 (Except.ok "data:image/png;base64,SU1H")
        (Except.ok "A caption")).1.get? j =
          some (P1.GenEvent.callCaption exStP1.accomplishment) :=
  (claim_C3 exStP1 (Except.ok "data:image/png;base64,SU1H") (Except.ok "A caption")).2.1
    exStP1.accomplishment (by decide)

/-- Claim C1 as stated is false: handleGenerate in src/index.tsx clears
the generated image and the caption before the remote call, so after a
failing call they differ from their values before the operation began. -/
theorem claim_C1_cex :
    ¬ ((ITsx.handleGenerate exAppState (Except.error "NetworkError")).caption =
        exAppState.caption ∧
       (ITsx.handleGenerate exAppState (Except.error "NetworkError")).generatedImage =
        exAppState.generatedImage) := by decide

/-- Claim C1 amended: when a remote call fails, each handler catches the
exception, surfaces an error message or an error notification, and clears
its busy flag; the accomplishment text and the style reference keep their
prior values, and the src/index.tsx handlers log the error to the console.
However handleGenerate clears the generated image, and in src/index.tsx
also the caption, when the operation starts, so after a failure these stay
cleared rather than restored; and the part_001 handleGenerate catch does
not log to the console. -/
theorem claim_C1_amended (st : ITsx.AppState) (stp : P1.StP1) (m now : String)
    (resp : HttpResp) (co : Except String String)
    (h1 : st.accomplishment ≠ "") (h2 : st.logoBase64 ≠ none)
    (h3 : st.textContent ≠ "") (h4 : st.generatedImage ≠ none) (h5 : resp.ok = false)
    (h6 : stp.accomplishment ≠ "") (h7 : stp.logoBase64 ≠ none) :
    ((ITsx.handleGenerate st (Except.error m)).accomplishment = st.accomplishment ∧
     (ITsx.handleGenerate st (Except.error m)).styleRef = st.styleRef ∧
     (ITsx.handleGenerate st (Except.error m)).errorMsg =
       some (ITsx.jsOrStr m "Failed to generate image.") ∧
     (ITsx.handleGenerate st (Except.error m)).loading = false ∧
     (ITsx.handleGenerate st (Except.error m)).generatedImage = none ∧
     (ITsx.handleGenerate st (Except.error m)).caption = "" ∧
     (ITsx.handleGenerate st (Except.error m)).console = st.console ++ [m]) ∧
    (∀ ty, (ITsx.handleEnhance st ty (Except.error m)).accomplishment = st.accomplishment ∧
      (ITsx.handleEnhance st ty (Except.error m)).textContent = st.textContent ∧
      (ITsx.handleEnhance st ty (Except.error m)).styleRef = st.styleRef ∧
      (ITsx.handleEnhance st ty (Except.error m)).errorMsg =
        some "Failed to enhance text. Please try again." ∧
      (ITsx.handleEnhance st ty (Except.error m)).enhancing = false ∧
      (ITsx.handleEnhance st ty (Except.error m)).console = st.console ++ [m]) ∧
    ((ITsx.handleGenerateCaption st (Except.error m)).caption = st.caption ∧
     (ITsx.handleGenerateCaption st (Except.error m)).accomplishment = st.accomplishment ∧
     (ITsx.handleGenerateCaption st (Except.error m)).styleRef = st.styleRef ∧
     (ITsx.handleGenerateCaption st (Except.error m)).errorMsg =
       some "Failed to generate caption." ∧
     (ITsx.handleGenerateCaption st (Except.error m)).generatingCaption = false ∧
     (ITsx.handleGenerateCaption st (Except.error m)).console = st.console ++ [m]) ∧
    ((ITsx.handlePostToLinkedIn st now resp).2.isSome = true ∧
     (ITsx.handlePostToLinkedIn st now resp).1.posting = false ∧
     (∃ emsg, (ITsx.handlePostToLinkedIn st now resp).1.notif =
       some ⟨emsg, NotifKind.error⟩) ∧
     (ITsx.handlePostToLinkedIn st now resp).1.caption = st.caption ∧
     (ITsx.handlePostToLinkedIn st now resp).1.generatedImage = st.generatedImage ∧
     (ITsx.handlePostToLinkedIn st now resp).1.accomplishment = st.accomplishment ∧
     (ITsx.handlePostToLinkedIn st now resp).1.styleRef = st.styleRef ∧
     (∃ lm, (ITsx.handlePostToLinkedIn st now resp).1.console = st.console ++ [lm])) ∧
    ((P1.handleGenerateP1 stp (Except.error m) co).2.accomplishment = stp.accomplishment ∧
     (P1.handleGenerateP1 stp (Except.error m) co).2.styleRef = stp.styleRef ∧
     (P1.handleGenerateP1 stp (Except.error m) co).2.caption = stp.caption ∧
     (P1.handleGenerateP1 stp (Except.error m) co).2.notif =
       some ⟨"Engine Failure: Unable to generate", NotifKind.error⟩ ∧
     (P1.handleGenerateP1 stp (Except.error m) co).2.loading = false ∧
     (P1.handleGenerateP1 stp (Except.error m) co).2.generatedImage = none ∧
     (P1.handleGenerateP1 stp (Except.error m) co).2.console = stp.console) := by
  refine ⟨?_, ?_, ?_, ?_, ?_⟩
  · simp [ITsx.handleGenerate, h1, h2]
  · intro ty
    cases ty <;> simp [ITsx.handleEnhance, h1, h3]
  · simp [ITsx.handleGenerateCaption, h1]
  · obtain ⟨img, himg⟩ := Option.ne_none_iff_exists'.mp h4
    cases hta : st.activeTab <;>
      simp [ITsx.handlePostToLinkedIn, hta, himg, h3, h5]
  · simp [P1.handleGenerateP1, h6, h7]

/-- Witness for the amended C1 at a concrete state, a failing response and
a concrete error message. -/
theorem claim_C1_witness :
    ((ITsx.handleGenerate exAppState (Except.error "boom")).accomplishment =
       exAppState.accomplishment ∧
     (ITsx.handleGenerate exAppState (Except.error "boom")).styleRef = exAppState.styleRef ∧
     (ITsx.handleGenerate exAppState (Except.error "boom")).errorMsg =
       some (ITsx.jsOrStr "boom" "Failed to generate image.") ∧
     (ITsx.handleGenerate exAppState (Except.error "boom")).loading = false ∧
     (ITsx.handleGenerate exAppState (Except.error "boom")).generatedImage = none ∧
     (ITsx.handleGenerate exAppState (Except.error "boom")).caption = "" ∧
     (ITsx.handleGenerate exAppState (Except.error "boom")).console =
       exAppState.console ++ ["boom"]) ∧
    ((ITsx.handleEnhance exAppState ITsx.PostType.image (Except.error "boom")).accomplishment =
       exAppState.accomplishment ∧
     (ITsx.handleEnhance exAppState ITsx.PostType.image (Except.error "boom")).textContent =
       exAppState.textContent ∧
     (ITsx.handleEnhance exAppState ITsx.PostType.image (Except.error "boom")).styleRef =
       exAppState.styleRef ∧
     (ITsx.handleEnhance exAppState ITsx.PostType.image (Except.error "boom")).errorMsg =
       some "Failed to enhance text. Please try again." ∧
     (ITsx.handleEnhance exAppState ITsx.PostType.image (Except.error "boom")).enhancing =
       false ∧
     (ITsx.handleEnhance exAppState ITsx.PostType.image (Except.error "boom")).console =
       exAppState.console ++ ["boom"]) ∧
    ((ITsx.handleGenerateCaption exAppState (Except.error "boom")).caption =
       exAppState.caption ∧
     (ITsx.handleGenerateCaption exAppState (Except.error "boom")).accomplishment =
       exAppState.accomplishment ∧
     (ITsx.handleGenerateCaption exAppState (Except.error "boom")).styleRef =
       exAppState.styleRef ∧
     (ITsx.handleGenerateCaption exAppState (Except.error "boom")).errorMsg =
       some "Failed to generate caption." ∧
     (ITsx.handleGenerateCaption exAppState (Except.error "boom")).generatingCaption = false ∧
     (ITsx.handleGenerateCaption exAppState (Except.error "boom")).console =
       exAppState.console ++ ["boom"]) ∧
    ((ITsx.handlePostToLinkedIn exAppState "2026-10-11T12:00:00.000Z" exRespFail).2.isSome =
       true ∧
     (ITsx.handlePostToLinkedIn exAppState "2026-10-11T12:00:00.000Z" exRespFail).1.posting =
       false ∧
     (∃ emsg, (ITsx.handlePostToLinkedIn exAppState "2026-10-11T12:00:00.000Z"
       exRespFail).1.notif = some ⟨emsg, NotifKind.error⟩) ∧
     (ITsx.handlePostToLinkedIn exAppState "2026-10-11T12:00:00.000Z" exRespFail).1.caption =
       exAppState.caption ∧
     (ITsx.handlePostToLinkedIn exAppState "2026-10-11T12:00:00.000Z"
       exRespFail).1.generatedImage = exAppState.generatedImage ∧
     (ITsx.handlePostToLinkedIn exAppState "2026-10-11T12:00:00.000Z"
       exRespFail).1.accomplishment = exAppState.accomplishment ∧
     (ITsx.handlePostToLinkedIn exAppState "2026-10-11T12:00:00.000Z"
       exRespFail).1.styleRef = exAppState.styleRef ∧
     (∃ lm, (ITsx.handlePostToLinkedIn exAppState "2026-10-11T12:00:00.000Z"
       exRespFail).1.console = exAppState.console ++ [lm])) ∧
    ((P1.handleGenerateP1 exStP1 (Except.error "boom")
        (Except.ok "cap")).2.accomplishment = exStP1.accomplishment ∧
     (P1.handleGenerateP1 exStP1 (Except.error "boom") (Except.ok "cap")).2.styleRef =
       exStP1.styleRef ∧
     (P1.handleGenerateP1 exStP1 (Except.error "boom") (Except.ok "cap")).2.caption =
       exStP1.caption ∧
     (P1.handleGenerateP1 exStP1 (Except.error "boom") (Except.ok "cap")).2.notif =
       some ⟨"Engine Failure: Unable to generate", NotifKind.error⟩ ∧
     (P1.handleGenerateP1 exStP1 (Except.error "boom") (Except.ok "cap")).2.loading = false ∧
     (P1.handleGenerateP1 exStP1 (Except.error "boom") (Except.ok "cap")).2.generatedImage =
       none ∧
     (P1.handleGenerateP1 exStP1 (Except.error "boom") (Except.ok "cap")).2.console =
       exStP1.console) := by
  have h := claim_C1_amended exAppState exStP1 "boom" "2026-10-11T12:00:00.000Z" exRespFail
    (Except.ok "cap") (by decide) (by decide) (by decide) (by decide) (by decide)
    (by decide) (by decide)
  exact ⟨h.1, h.2.1 ITsx.PostType.image, h.2.2.1, h.2.2.2.1, h.2.2.2.2⟩

/-- Claim C2 as stated is false: on the text tab with nonempty content,
handlePostToLinkedIn of src/index.tsx sends a JSON body, not multipart form
data, to the text webhook. -/
theorem claim_C2_cex :
    ((ITsx.handlePostToLinkedIn exAppStateText "2026-10-11T12:00:00.000Z"
        ⟨true, 200, ""⟩).2.map (fun r => r.body.isMultipart)) = some false := by decide

/-- Claim C2 amended: the image branch of handlePostToLinkedIn sends
multipart form data holding the image blob and, when nonempty, the caption
text field, to the image webhook; the text-only branch instead sends a JSON
object with text, timestamp and type fields to a separate text webhook. -/
theorem claim_C2_amended (st : ITsx.AppState) (now : String) (resp : HttpResp) (r : Request)
    (h : (ITsx.handlePostToLinkedIn st now resp).2 = some r) :
    (st.activeTab = ITsx.PostType.image →
      r.url = ITsx.IMAGE_WEBHOOK_URL ∧
      (∃ img, st.generatedImage = some img ∧
        r.body = ReqBody.multipart (FormPart.mk "file" (FormValue.fileVal img "post.png") ::
          (if st.caption = "" then []
           else [FormPart.mk "caption" (FormValue.textVal st.caption)]))) ∧
      r.body.isMultipart = true) ∧
    (st.activeTab = ITsx.PostType.text →
      r.url = ITsx.TEXT_WEBHOOK_URL ∧
      r.body = ReqBody.jsonBody
        [("text", st.textContent), ("timestamp", now), ("type", "text_post")] ∧
      r.body.isMultipart = false) := by
  cases hta : st.activeTab with
  | image =>
    cases himg : st.generatedImage with
    | none => simp [ITsx.handlePostToLinkedIn, hta, himg] at h
    | some img =>
      simp only [ITsx.handlePostToLinkedIn, hta, himg] at h
      split at h <;>
        (simp only [Option.some.injEq] at h
         subst h
         refine ⟨fun _ => ⟨rfl, ⟨img, rfl, rfl⟩, rfl⟩, fun hx => ?_⟩
         simp at hx)
  | text =>
    by_cases htx : st.textContent = ""
    · simp [ITsx.handlePostToLinkedIn, hta, htx] at h
    · simp only [ITsx.handlePostToLinkedIn, hta] at h
      rw [if_neg htx] at h
      split at h <;>
        (simp only [Option.some.injEq] at h
         subst h
         refine ⟨fun hx => ?_, fun _ => ⟨rfl, rfl, rfl⟩⟩
         simp at hx)

/-- Witness for the amended C2 at the example text-tab state. -/
theorem claim_C2_witness :
    exTextReq.url = ITsx.TEXT_WEBHOOK_URL ∧
    exTextReq.body = ReqBody.jsonBody
      [("text", exAppStateText.textContent), ("timestamp", "2026-10-11T12:00:00.000Z"),
       ("type", "text_post")] ∧
    exTextReq.body.isMultipart = false :=
  (claim_C2_amended exAppStateText "2026-10-11T12:00:00.000Z" ⟨true, 200, ""⟩ exTextReq
    (by decide)).2 rfl

/-- Possible request traces of generateSocialPost: either a conversion
failure throws before any request, or exactly one request reaches the
image generation webhook. -/
theorem generateSocialPost_trace (acc logo : String) (sr : Option String)
    (resp : HttpResp) (rdu : String) :
    (GSvc.generateSocialPost acc logo sr resp rdu).1 = [] ∨
    (GSvc.generateSocialPost acc logo sr resp rdu).1 =
      [NetEvent.request GSvc.WEBHOOK_URL] := by
  rcases hlb : GSvc.dataURLtoBlob logo with e | b
  · simp [GSvc.generateSocialPost, hlb]
  · cases sr with
    | none => by_cases hok : resp.ok <;> simp [GSvc.generateSocialPost, hlb, hok]
    | some s =>
      rcases hsb : GSvc.dataURLtoBlob s with e2 | b2 <;>
        by_cases hok : resp.ok <;>
          simp [GSvc.generateSocialPost, hlb, hsb, hok]

/-- A one-event trace holds at most one request to any URL. -/
theorem filter_request_singleton_le_one (x : NetEvent) (u : String) :
    (([x]).filter (fun e => decide (e = NetEvent.request u))).length ≤ 1 := by
  by_cases hu : x = NetEvent.request u <;> simp [List.filter, hu]

/-- Claim C4: per user action, each external endpoint is requested at most
once, with no sleep event before the error is reported: the
generateSocialPost trace holds at most one request to any URL and no sleep;
the publish handler emits at most one webhook request; both handleGenerate
variants call the image endpoint and the caption endpoint at most once
each; and the enhance and caption actions, through enhanceText and
generateCaption, reach the text-generation endpoint at most once with no
sleep, whether at the service level or through the handleEnhance,
handleEnhanceCaption and handleGenerateCaption handlers. -/
theorem claim_C4 (acc logo : String) (styleRef : Option String) (resp : HttpResp)
    (rdu : String) (st : ITsx.AppState) (now : String) (stp : P1.StP1)
    (io co : Except String String) (text : String)
    (eo : Except String (Option String)) (ty : ITsx.PostType) :
    (∀ u, ((GSvc.generateSocialPost acc logo styleRef resp rdu).1.filter
        (fun e => decide (e = NetEvent.request u))).length ≤ 1) ∧
    (∀ ms, NetEvent.sleep ms ∉ (GSvc.generateSocialPost acc logo styleRef resp rdu).1) ∧
    (∀ u, (((ITsx.handlePostToLinkedIn st now resp).2.toList.map Request.url).filter
        (fun x => decide (x = u))).length ≤ 1) ∧
    (((P1.handleGenerateP1 stp io co).1.filter P1.GenEvent.isCallImage).length ≤ 1 ∧
     ((P1.handleGenerateP1 stp io co).1.filter P1.GenEvent.isCallCaption).length ≤ 1 ∧
     ((P1.handleGenerateGS stp io co).1.filter P1.GenEvent.isCallImage).length ≤ 1 ∧
     ((P1.handleGenerateGS stp io co).1.filter P1.GenEvent.isCallCaption).length ≤ 1) ∧
    (∀ u, ((GSvc.enhanceTextTrace text eo).1.filter
        (fun e => decide (e = NetEvent.request u))).length ≤ 1) ∧
    (∀ ms, NetEvent.sleep ms ∉ (GSvc.enhanceTextTrace text eo).1) ∧
    (∀ u, ((GSvc.generateCaptionTrace text eo).1.filter
        (fun e => decide (e = NetEvent.request u))).length ≤ 1) ∧
    (∀ ms, NetEvent.sleep ms ∉ (GSvc.generateCaptionTrace text eo).1) ∧
    (∀ u, ((ITsx.handleEnhanceTrace st ty eo).filter
        (fun e => decide (e = NetEvent.request u))).length ≤ 1) ∧
    (∀ ms, NetEvent.sleep ms ∉ ITsx.handleEnhanceTrace st ty eo) ∧
    (∀ u, ((ITsx.handleEnhanceCaptionTrace st eo).filter
        (fun e => decide (e = NetEvent.request u))).length ≤ 1) ∧
    (∀ ms, NetEvent.sleep ms ∉ ITsx.handleEnhanceCaptionTrace st eo) ∧
    (∀ u, ((ITsx.handleGenerateCaptionTrace st eo).filter
        (fun e => decide (e = NetEvent.request u))).length ≤ 1) ∧
    (∀ ms, NetEvent.sleep ms ∉ ITsx.handleGenerateCaptionTrace st eo) := by
  have henh : ∀ (t : String),
      (GSvc.enhanceTextTrace t eo).1 = [NetEvent.request GSvc.generateContentEndpoint] := by
    intro t
    cases eo <;> rfl
  have hcap : ∀ (t : String),
      (GSvc.generateCaptionTrace t eo).1 =
        [NetEvent.request GSvc.generateContentEndpoint] := by
    intro t
    cases eo <;> rfl
  refine ⟨?_, ?_, ?_, ?_, ?_, ?_, ?_, ?_, ?_, ?_, ?_, ?_, ?_, ?_⟩
  · intro u
    rcases generateSocialPost_trace acc logo styleRef resp rdu with h | h <;> rw [h]
    · simp
    · by_cases hu : NetEvent.request GSvc.WEBHOOK_URL = NetEvent.request u <;>
        simp [List.filter, hu]
  · intro ms
    rcases generateSocialPost_trace acc logo styleRef resp rdu with h | h <;> rw [h] <;> simp
  · intro u
    calc (((ITsx.handlePostToLinkedIn st now resp).2.toList.map Request.url).filter
        (fun x => decide (x = u))).length
        ≤ ((ITsx.handlePostToLinkedIn st now resp).2.toList.map Request.url).length :=
          List.length_filter_le _ _
      _ = (ITsx.handlePostToLinkedIn st now resp).2.toList.length := List.length_map _ _
      _ ≤ 1 := by cases (ITsx.handlePostToLinkedIn st now resp).2 <;> simp
  · by_cases hg : stp.accomplishment = "" ∨ stp.logoBase64 = none
    · simp [P1.handleGenerateP1, P1.handleGenerateGS, hg]
    · cases io with
      | error m =>
        cases co <;>
          simp [P1.handleGenerateP1, P1.handleGenerateGS, hg, List.filter,
            P1.GenEvent.isCallImage, P1.GenEvent.isCallCaption]
      | ok res =>
        by_cases hc : stp.caption = "" <;> cases co <;>
          simp [P1.handleGenerateP1, P1.handleGenerateGS, hg, hc, List.filter,
            P1.GenEvent.isCallImage, P1.GenEvent.isCallCaption]
  · intro u
    rw [henh text]
    exact filter_request_singleton_le_one _ u
  · intro ms
    rw [henh text]
    simp
  · intro u
    rw [hcap text]
    exact filter_request_singleton_le_one _ u
  · intro ms
    rw [hcap text]
    simp
  · intro u
    by_cases h : (if ty = ITsx.PostType.image then st.accomplishment
        else st.textContent) = ""
    · simp [ITsx.handleEnhanceTrace, h]
    · simp only [ITsx.handleEnhanceTrace, if_neg h, henh]
      exact filter_request_singleton_le_one _ u
  · intro ms
    by_cases h : (if ty = ITsx.PostType.image then st.accomplishment
        else st.textContent) = ""
    · simp [ITsx.handleEnhanceTrace, h]
    · simp [ITsx.handleEnhanceTrace, if_neg h, henh]
  · intro u
    by_cases h : st.caption = ""
    · simp [ITsx.handleEnhanceCaptionTrace, h]
    · simp only [ITsx.handleEnhanceCaptionTrace, if_neg h, henh]
      exact filter_request_singleton_le_one _ u
  · intro ms
    by_cases h : st.caption = ""
    · simp [ITsx.handleEnhanceCaptionTrace, h]
    · simp [ITsx.handleEnhanceCaptionTrace, if_neg h, henh]
  · intro u
    by_cases h : st.accomplishment = ""
    · simp [ITsx.handleGenerateCaptionTrace, h]
    · simp only [ITsx.handleGenerateCaptionTrace, if_neg h, hcap]
      exact filter_request_singleton_le_one _ u
  · intro ms
    by_cases h : st.accomplishment = ""
    · simp [ITsx.handleGenerateCaptionTrace, h]
    · simp [ITsx.handleGenerateCaptionTrace, if_neg h, hcap]

/-- Witness for C4: the trace bounds at a concrete invocation, evaluated
at the image webhook URL and at the text-generation endpoint for a
concrete failing enhance call. -/
theorem claim_C4_witness :
    ((GSvc.generateSocialPost "We shipped it" "data:image/png;base64,TE9HTw==" none
        exRespFail "data:image/png;base64,SU1H").1.filter
      (fun e => decide (e = NetEvent.request GSvc.WEBHOOK_URL))).length ≤ 1 ∧
    ((ITsx.handleEnhanceTrace exAppState ITsx.PostType.image (Except.error "quota")).filter
      (fun e => decide (e = NetEvent.request GSvc.generateContentEndpoint))).length ≤ 1 :=
  ⟨(claim_C4 "We shipped it" "data:image/png;base64,TE9HTw==" none exRespFail
      "data:image/png;base64,SU1H" exAppState "2026-10-11T12:00:00.000Z" exStP1
      (Except.error "x") (Except.ok "c") "Polish this text" (Except.error "quota")
      ITsx.PostType.image).1 GSvc.WEBHOOK_URL,
   (claim_C4 "We shipped it" "data:image/png;base64,TE9HTw==" none exRespFail
      "data:image/png;base64,SU1H" exAppState "2026-10-11T12:00:00.000Z" exStP1
      (Except.error "x") (Except.ok "c") "Polish this text" (Except.error "quota")
      ITsx.PostType.image).2.2.2.2.2.2.2.2.1 GSvc.generateContentEndpoint⟩

/-- Decoding a base64 character produced for a sextet value below 64
recovers that value. -/
theorem b64_roundtrip_idx : ∀ i < 64, GSvc.b64ToIdx (GSvc.idxToB64 i) = some i := by decide

/-- Every character produced by idxToB64 lies in the base64 alphabet. -/
theorem idxToB64_mem (i : Nat) : GSvc.idxToB64 i ∈ GSvc.b64Chars := by
  unfold GSvc.idxToB64
  by_cases h : i < GSvc.b64Chars.length
  · rw [List.getD_eq_getElem _ _ h]
    exact List.getElem_mem h
  · rw [List.getD_eq_default _ _ (le_of_not_lt h)]
    decide

/-- idxToB64 never produces a character outside the base64 alphabet. -/
theorem idxToB64_ne (i : Nat) (c : Char) (hc : c ∉ GSvc.b64Chars) :
    GSvc.idxToB64 i ≠ c :=
  fun he => hc (he ▸ idxToB64_mem i)

/-- Base64 decoding inverts base64 encoding on byte lists. -/
theorem atobList_btoaList : ∀ (bs : List Nat), (∀ x ∈ bs, x < 256) →
    GSvc.atobList (GSvc.btoaList bs) = some bs
  | [], _ => rfl
  | [a], h => by
    have ha : a < 256 := h a (by simp)
    have h1 := b64_roundtrip_idx (a / 4) (by omega)
    have h2 := b64_roundtrip_idx ((a % 4) * 16) (by omega)
    simp [GSvc.btoaList, GSvc.atobList, h1, h2]
    omega
  | [a, b], h => by
    have ha : a < 256 := h a (by simp)
    have hb : b < 256 := h b (by simp)
    have h1 := b64_roundtrip_idx (a / 4) (by omega)
    have h2 := b64_roundtrip_idx ((a % 4) * 16 + b / 16) (by omega)
    have h3 := b64_roundtrip_idx ((b % 16) * 4) (by omega)
    have ne3 : GSvc.idxToB64 ((b % 16) * 4) ≠ '=' := idxToB64_ne _ '=' (by decide)
    simp [GSvc.btoaList, GSvc.atobList, h1, h2, h3, ne3]
    omega
  | a :: b :: c :: rest, h => by
    have ha : a < 256 := h a (by simp)
    have hb : b < 256 := h b (by simp)
    have hc : c < 256 := h c (by simp)
    have ih := atobList_btoaList rest (fun x hx => h x (by simp [hx]))
    have h1 := b64_roundtrip_idx (a / 4) (by omega)
    have h2 := b64_roundtrip_idx ((a % 4) * 16 + b / 16) (by omega)
    have h3 := b64_roundtrip_idx ((b % 16) * 4 + c / 64) (by omega)
    have h4 := b64_roundtrip_idx (c % 64) (by omega)
    have ne3 : GSvc.idxToB64 ((b % 16) * 4 + c / 64) ≠ '=' := idxToB64_ne _ '=' (by decide)
    have ne4 : GSvc.idxToB64 (c % 64) ≠ '=' := idxToB64_ne _ '=' (by decide)
    simp [GSvc.btoaList, GSvc.atobList, h1, h2, h3, h4, ne3, ne4, ih]
    omega

/-- Characters of a base64 encoding are alphabet characters or padding. -/
theorem btoaList_chars : ∀ (bs : List Nat) (c : Char), c ∈ GSvc.btoaList bs →
    c ∈ GSvc.b64Chars ∨ c = '='
  | [], c, hm => by simp [GSvc.btoaList] at hm
  | [a], c, hm => by
    simp [GSvc.btoaList] at hm
    rcases hm with h | h | h
    · exact Or.inl (h ▸ idxToB64_mem _)
    · exact Or.inl (h ▸ idxToB64_mem _)
    · exact Or.inr h
  | [a, b], c, hm => by
    simp [GSvc.btoaList] at hm
    rcases hm with h | h | h | h
    · exact Or.inl (h ▸ idxToB64_mem _)
    · exact Or.inl (h ▸ idxToB64_mem _)
    · exact Or.inl (h ▸ idxToB64_mem _)
    · exact Or.inr h
  | a :: b :: d :: rest, c, hm => by
    simp only [GSvc.btoaList, List.mem_cons] at hm
    rcases hm with h | h | h | h | h
    · exact Or.inl (h ▸ idxToB64_mem _)
    · exact Or.inl (h ▸ idxToB64_mem _)
    · exact Or.inl (h ▸ idxToB64_mem _)
    · exact Or.inl (h ▸ idxToB64_mem _)
    · exact btoaList_chars rest c h

/-- No comma appears in a base64 encoding. -/
theorem btoaList_no_comma (bs : List Nat) : ',' ∉ GSvc.btoaList bs := by
  intro hm
  rcases btoaList_chars bs ',' hm with h | h
  · exact absurd h (by decide)
  · exact absurd h (by decide)

/-- splitChar never returns the empty list. -/
theorem splitChar_ne_nil (sep : Char) : ∀ (l : List Char), splitChar sep l ≠ []
  | [] => by simp [splitChar]
  | c :: rest => by
    by_cases hc : c = sep
    · simp [splitChar, hc]
    · simp only [splitChar, if_neg hc]
      cases hsc : splitChar sep rest <;> simp

/-- Splitting a list free of the separator yields the single segment. -/
theorem splitChar_no_sep (sep : Char) : ∀ (l : List Char), sep ∉ l →
    splitChar sep l = [l]
  | [], _ => rfl
  | c :: rest, h => by
    have hc : ¬ c = sep := by
      intro e
      exact h (by simp [e])
    have hr : sep ∉ rest := fun m => h (List.mem_cons_of_mem _ m)
    simp [splitChar, hc, splitChar_no_sep sep rest hr]

/-- Splitting around the first separator occurrence detaches the prefix
segment. -/
theorem splitChar_append (sep : Char) : ∀ (l1 l2 : List Char), sep ∉ l1 →
    splitChar sep (l1 ++ sep :: l2) = l1 :: splitChar sep l2
  | [], l2, _ => by simp [splitChar]
  | c :: l1, l2, h => by
    have hc : ¬ c = sep := by
      intro e
      exact h (by simp [e])
    have h1 : sep ∉ l1 := fun m => h (List.mem_cons_of_mem _ m)
    simp [splitChar, hc, splitChar_append sep l1 l2 h1]

/-- takeUntilSemi fails on lists holding no semicolon. -/
theorem takeUntilSemi_none : ∀ (l : List Char), ';' ∉ l → GSvc.takeUntilSemi l = none
  | [], _ => rfl
  | c :: rest, h => by
    have hc : ¬ c = ';' := by
      intro e
      exact h (by simp [e])
    have hr : ';' ∉ rest := fun m => h (List.mem_cons_of_mem _ m)
    by_cases hn : c = '\n' ∨ c = '\r' <;>
      simp [GSvc.takeUntilSemi, hc, hn, takeUntilSemi_none rest hr]

/-- takeUntilSemi captures exactly the characters before the first
semicolon when none of them is a semicolon or a line terminator. -/
theorem takeUntilSemi_append : ∀ (m r : List Char),
    (∀ c ∈ m, c ≠ ';' ∧ c ≠ '\n' ∧ c ≠ '\r') →
    GSvc.takeUntilSemi (m ++ ';' :: r) = some m
  | [], r, _ => by simp [GSvc.takeUntilSemi]
  | c :: m, r, h => by
    obtain ⟨h1, h2, h3⟩ := h c (List.mem_cons_self c m)
    have hm : ∀ x ∈ m, x ≠ ';' ∧ x ≠ '\n' ∧ x ≠ '\r' :=
      fun x hx => h x (List.mem_cons_of_mem _ hx)
    simp [GSvc.takeUntilSemi, h1, h2, h3, takeUntilSemi_append m r hm]

/-- The regex scan skips a character that is not a colon. -/
theorem matchColonSemi_cons_ne (c : Char) (l : List Char) (h : c ≠ ':') :
    GSvc.matchColonSemi (c :: l) = GSvc.matchColonSemi l := by
  simp [GSvc.matchColonSemi, h]

/-- The regex scan fails on lists holding no semicolon at all. -/
theorem matchColonSemi_none : ∀ (l : List Char), ';' ∉ l → GSvc.matchColonSemi l = none
  | [], _ => rfl
  | c :: rest, h => by
    have hr : ';' ∉ rest := fun m => h (List.mem_cons_of_mem _ m)
    by_cases hc : c = ':'
    · simp [GSvc.matchColonSemi, hc, takeUntilSemi_none rest hr,
        matchColonSemi_none rest hr]
    · rw [matchColonSemi_cons_ne c rest hc]
      exact matchColonSemi_none rest hr

/-- On the first segment of a well-formed data URL, the regex captures
exactly the MIME type between the colon and the semicolon. -/
theorem matchColonSemi_data (m : List Char)
    (hm : ∀ c ∈ m, c ≠ ';' ∧ c ≠ '\n' ∧ c ≠ '\r') :
    GSvc.matchColonSemi
        (['d', 'a', 't', 'a', ':'] ++ m ++ [';', 'b', 'a', 's', 'e', '6', '4']) = some m := by
  show GSvc.matchColonSemi
    ('d' :: 'a' :: 't' :: 'a' :: ':' :: (m ++ ';' :: ['b', 'a', 's', 'e', '6', '4'])) = some m
  rw [matchColonSemi_cons_ne _ _ (by decide), matchColonSemi_cons_ne _ _ (by decide),
    matchColonSemi_cons_ne _ _ (by decide), matchColonSemi_cons_ne _ _ (by decide)]
  simp [GSvc.matchColonSemi, takeUntilSemi_append m _ hm]

/-- Claim C8: on a well-formed base64 data URL, dataURLtoBlob returns a
blob whose MIME type is exactly the MIME section and whose bytes are the
base64 decoding of the payload, stated through the encoder so that the
bytes round-trip exactly; and an input with no semicolon-delimited MIME
section before the first comma makes the regex match fail, which throws. -/
theorem claim_C8 :
    (∀ (mime : List Char) (bs : List Nat),
      (∀ c ∈ mime, c ≠ ',' ∧ c ≠ ';' ∧ c ≠ '\n' ∧ c ≠ '\r') →
      (∀ x ∈ bs, x < 256) →
      GSvc.dataURLtoBlob
          (String.mk ("data:".toList ++ mime ++ ";base64,".toList ++ GSvc.btoaList bs)) =
        Except.ok ⟨String.mk mime, bs⟩) ∧
    (∀ s : String, ';' ∉ (splitChar ',' s.toList).headD [] →
      GSvc.dataURLtoBlob s = Except.error "TypeError: regex match is null") := by
  constructor
  · intro mime bs hm hb
    have hmime2 : ∀ c ∈ mime, c ≠ ';' ∧ c ≠ '\n' ∧ c ≠ '\r' :=
      fun c hc => ⟨(hm c hc).2.1, (hm c hc).2.2.1, (hm c hc).2.2.2⟩
    have hnc : ',' ∉ (['d', 'a', 't', 'a', ':'] ++ mime ++
        [';', 'b', 'a', 's', 'e', '6', '4']) := by
      intro hmem
      rcases List.mem_append.mp hmem with h12 | h3
      · rcases List.mem_append.mp h12 with h1 | h2
        · exact absurd h1 (by decide)
        · exact (hm ',' h2).1 rfl
      · exact absurd h3 (by decide)
    have hpay : ',' ∉ GSvc.btoaList bs := btoaList_no_comma bs
    have hdata : (String.mk ("data:".toList ++ mime ++ ";base64,".toList ++
        GSvc.btoaList bs)).toList =
        (['d', 'a', 't', 'a', ':'] ++ mime ++ [';', 'b', 'a', 's', 'e', '6', '4']) ++
          ',' :: GSvc.btoaList bs := by
      show ("data:".toList ++ mime ++ ";base64,".toList ++ GSvc.btoaList bs) = _
      simp [List.append_assoc]
    simp only [GSvc.dataURLtoBlob]
    rw [hdata, splitChar_append ',' _ _ hnc, splitChar_no_sep ',' _ hpay]
    simp only [List.headD_cons, List.getD_cons_succ, List.getD_cons_zero]
    rw [matchColonSemi_data mime hmime2, atobList_btoaList bs hb]
  · intro s h
    simp only [GSvc.dataURLtoBlob]
    rw [matchColonSemi_none _ h]

/-- Witness for C8 at a PNG MIME type with three concrete bytes, and at a
data URL missing the semicolon. -/
theorem claim_C8_witness :
    GSvc.dataURLtoBlob (String.mk ("data:".toList ++ "image/png".toList ++
        ";base64,".toList ++ GSvc.btoaList [77, 0, 255])) =
      Except.ok ⟨String.mk "image/png".toList, [77, 0, 255]⟩ ∧
    GSvc.dataURLtoBlob "data:image/png" = Except.error "TypeError: regex match is null" :=
  ⟨claim_C8.1 "image/png".toList [77, 0, 255] (by decide) (by decide),
   claim_C8.2 "data:image/png" (by decide)⟩

/-- Claim C10: the collapsed LinkedInPreview shows the see-more control
exactly when the caption has strictly more than four newline-separated
lines, in which case it renders the first four lines joined by newlines;
otherwise, or once expanded, it renders the full text unchanged. -/
theorem claim_C10 (text : String) (isExpanded : Bool) :
    ((P0.linkedInPreview text isExpanded).2 = true ↔
      (4 < (splitChar '\n' text.toList).length ∧ isExpanded = false)) ∧
    ((P0.linkedInPreview text isExpanded).2 = true →
      (P0.linkedInPreview text isExpanded).1 =
        String.mk (joinChar '\n' ((splitChar '\n' text.toList).take 4))) ∧
    ((P0.linkedInPreview text isExpanded).2 = false →
      (P0.linkedInPreview text isExpanded).1 = text) := by
  by_cases hl : 4 < (splitChar '\n' text.data).length <;> cases isExpanded <;>
    simp [P0.linkedInPreview, P0.previewLimit, String.toList, hl]

/-- Witness for C10 at a six-line caption in the collapsed state. -/
theorem claim_C10_witness :
    (P0.linkedInPreview exCaption false).1 =
      String.mk (joinChar '\n' ((splitChar '\n' exCaption.toList).take 4)) :=
  (claim_C10 exCaption false).2.1 (by decide)

end Barq
